import Mathlib

/-!
Shallow embedding of the W scripting-language interpreter
(`src/interpreters/0.9.py`): lexer, recursive-descent parser, AST and
tree-walking evaluator over a flat global environment, together with the
per-line driver `run_line` / `run_file`.

Python values are modelled by `PyVal` (machine floats are modelled as exact
rationals; no claim below exercises float rounding).  Python dictionaries are
modelled as association lists looked up at the first matching key.  Python
exceptions are modelled by `PErr` values threaded through `Except` /
explicit error components; an uncaught exception aborts the surrounding
computation exactly where the Python exception would propagate.
Recursive interpreter functions take a fuel argument; exhausted fuel is
reported as `none` (for `run`) or a distinguished `fuelErr` (for the
parser), a modelling artefact distinct from every program-level error.
-/

namespace W

/-- Python exception classes that the interpreter can raise. -/
inductive EKind where
  | synErr      -- SyntaxError
  | nameErr     -- NameError
  | typeErr     -- TypeError
  | valueErr    -- ValueError
  | indexErr    -- IndexError
  | runtimeErr  -- RuntimeError
  | fileErr     -- FileNotFoundError
  | eofErr      -- EOFError (input() at end of stdin)
  | zeroDivErr  -- ZeroDivisionError
  | attrErr     -- AttributeError (e.g. `.type` on None)
  | fuelErr     -- modelling artefact: parser fuel exhausted (not a Python error)
  deriving DecidableEq, Repr

/-- A raised Python exception: its class and its `str(e)` message. -/
structure PErr where
  kind : EKind
  msg : String
  deriving DecidableEq, Repr

/-- Python runtime values handled by the interpreter: int, float, str, bool,
list (arrays), and None.  Floats are modelled as exact rationals. -/
inductive PyVal where
  | int (n : Int)
  | float (q : Rat)
  | str (s : String)
  | bool (b : Bool)
  | list (xs : List PyVal)
  | none

/-- `True`/`False` as the ints 1/0 (Python `bool` is a subclass of `int`). -/
def b2i (b : Bool) : Int := if b then 1 else 0

/-- `isinstance(v, int)` — true for ints and bools. -/
def isIntInst : PyVal → Bool
  | .int _ => true
  | .bool _ => true
  | _ => false

/-- `isinstance(v, (int, float))` — numeric instances (bools included). -/
def isNumInst : PyVal → Bool
  | .int _ => true
  | .bool _ => true
  | .float _ => true
  | _ => false

/-- The integer seen when an int-instance is used in arithmetic. -/
def intV : PyVal → Option Int
  | .int n => some n
  | .bool b => some (b2i b)
  | _ => Option.none

/-- The rational seen when a numeric instance is used in arithmetic. -/
def ratV : PyVal → Option Rat
  | .int n => some (n : Rat)
  | .bool b => some ((b2i b : Int) : Rat)
  | .float q => some q
  | _ => Option.none

/-- Python's type name for a value, as printed inside error messages. -/
def typeName : PyVal → String
  | .int _ => "int"
  | .float _ => "float"
  | .str _ => "str"
  | .bool _ => "bool"
  | .list _ => "list"
  | .none => "NoneType"

/-- Python truthiness `bool(v)`. -/
def pyBool : PyVal → Bool
  | .int n => n != 0
  | .float q => q != 0
  | .str s => s != ""
  | .bool b => b
  | .list xs => !xs.isEmpty
  | .none => false

/-- Truncation toward zero, as `int()` applied to a float. -/
def ratTrunc (q : Rat) : Int :=
  if 0 ≤ q.num then ((q.num.toNat / q.den : Nat) : Int)
  else -(((-q.num).toNat / q.den : Nat) : Int)

/-- Decimal rendering of a modelled float (approximate; no claim prints floats). -/
def floatStr (q : Rat) : String :=
  if q.den = 1 then toString q.num ++ ".0" else toString q.num ++ "/" ++ toString q.den

def commaJoin : List String → String
  | [] => ""
  | [x] => x
  | x :: rest => x ++ ", " ++ commaJoin rest

/-- `repr(v)` for atoms (strings get quotes); used for list elements.
Nested lists inside lists are not rendered in full (unreachable in claims). -/
def pyReprAtom : PyVal → String
  | .int n => toString n
  | .float q => floatStr q
  | .bool b => if b then "True" else "False"
  | .str s => "'" ++ s ++ "'"
  | .none => "None"
  | .list _ => "[...]"

/-- `str(v)` as used by `print`. -/
def pyStr : PyVal → String
  | .str s => s
  | .list xs => "[" ++ commaJoin (xs.map pyReprAtom) ++ "]"
  | v => pyReprAtom v

/-- Characters of a string. -/
def chars (s : String) : List Char := s.data

/-- `s.isdigit()` — nonempty and all ASCII digits (claims use ASCII only). -/
def pyIsDigit (s : String) : Bool :=
  !s.data.isEmpty && s.data.all Char.isDigit

/-- `s.replace(old, new)` restricted to removing every occurrence of one char. -/
def removeChar (c : Char) (s : String) : String :=
  ⟨s.data.filter (fun d => d ≠ c)⟩

def digitsToNat (ds : List Char) : Nat :=
  ds.foldl (fun acc d => acc * 10 + (d.toNat - '0'.toNat)) 0

/-- `int(s)` on a string: optional sign then digits, else ValueError. -/
def pyIntParse (s : String) : Except PErr Int :=
  let err : Except PErr Int :=
    .error ⟨.valueErr, "invalid literal for int() with base 10: '" ++ s ++ "'"⟩
  match s.data with
  | [] => err
  | '-' :: rest =>
      if !rest.isEmpty && rest.all Char.isDigit then .ok (-(digitsToNat rest : Int)) else err
  | '+' :: rest =>
      if !rest.isEmpty && rest.all Char.isDigit then .ok ((digitsToNat rest : Int)) else err
  | l =>
      if l.all Char.isDigit then .ok ((digitsToNat l : Int)) else err

/-- `float(s)` on a string: optional sign, digits, optional single fractional
part, else ValueError. -/
def pyFloatParse (s : String) : Except PErr Rat :=
  let err : Except PErr Rat :=
    .error ⟨.valueErr, "could not convert string to float: '" ++ s ++ "'"⟩
  let core : List Char → Except PErr Rat := fun l =>
    match l.splitOn '.' with
    | [ip] => if !ip.isEmpty && ip.all Char.isDigit then .ok ((digitsToNat ip : Int) : Rat) else err
    | [ip, fp] =>
        if !ip.isEmpty && ip.all Char.isDigit && !fp.isEmpty && fp.all Char.isDigit then
          .ok (((digitsToNat ip : Int) : Rat) + ((digitsToNat fp : Int) : Rat) / ((10 ^ fp.length : Nat) : Rat))
        else err
    | _ => err
  match s.data with
  | '-' :: rest => do let q ← core rest; .ok (-q)
  | '+' :: rest => core rest
  | l => core l

/-- `int(v)` on a runtime value (used for indices, redo counts, random bounds). -/
def pyToInt : PyVal → Except PErr Int
  | .int n => .ok n
  | .bool b => .ok (b2i b)
  | .float q => .ok (ratTrunc q)
  | .str s => pyIntParse s
  | v => .error ⟨.typeErr, "int() argument must be a string or a number, not '" ++ typeName v ++ "'"⟩

/-- Repeat a list `n` times (`list * int` in Python; negative counts give `[]`). -/
def repeatList (n : Int) (xs : List PyVal) : List PyVal :=
  (List.range n.toNat).foldl (fun acc _ => acc ++ xs) []

/-- Repeat a string `n` times (`str * int` in Python). -/
def repeatStr (n : Int) (s : String) : String :=
  (List.range n.toNat).foldl (fun acc _ => acc ++ s) ""

def opTypeErr (op : String) (l r : PyVal) : PErr :=
  ⟨.typeErr, "unsupported operand type(s) for " ++ op ++ ": '" ++ typeName l ++ "' and '" ++ typeName r ++ "'"⟩

/-- The value computed for `left <op> right` inside `eval_expr` (the `result`
variable, before the both-ints `int(result)` conversion).  Numeric pairs of
int-instances stay ints; any float makes the result a float; `+` also
concatenates strings and lists; `*` also repeats strings and lists. -/
def eval_binop (op : String) (l r : PyVal) : Except PErr PyVal :=
  if op == "+" then
    match intV l, intV r with
    | some a, some b => .ok (.int (a + b))
    | _, _ =>
      match ratV l, ratV r with
      | some a, some b => .ok (.float (a + b))
      | _, _ =>
        match l, r with
        | .str a, .str b => .ok (.str (a ++ b))
        | .list a, .list b => .ok (.list (a ++ b))
        | _, _ => .error (opTypeErr "+" l r)
  else if op == "-" then
    match intV l, intV r with
    | some a, some b => .ok (.int (a - b))
    | _, _ =>
      match ratV l, ratV r with
      | some a, some b => .ok (.float (a - b))
      | _, _ => .error (opTypeErr "-" l r)
  else if op == "*" then
    match intV l, intV r with
    | some a, some b => .ok (.int (a * b))
    | _, _ =>
      match ratV l, ratV r with
      | some a, some b => .ok (.float (a * b))
      | _, _ =>
        match l, r with
        | .str s, _ => match intV r with
          | some n => .ok (.str (repeatStr n s))
          | _ => .error (opTypeErr "*" l r)
        | _, .str s => match intV l with
          | some n => .ok (.str (repeatStr n s))
          | _ => .error (opTypeErr "*" l r)
        | .list xs, _ => match intV r with
          | some n => .ok (.list (repeatList n xs))
          | _ => .error (opTypeErr "*" l r)
        | _, .list xs => match intV l with
          | some n => .ok (.list (repeatList n xs))
          | _ => .error (opTypeErr "*" l r)
        | _, _ => .error (opTypeErr "*" l r)
  else if op == "/" then
    match ratV l, ratV r with
    | some a, some b =>
        if b == 0 then
          .error ⟨.zeroDivErr,
            if isIntInst l && isIntInst r then "division by zero" else "float division by zero"⟩
        else .ok (.float (a / b))
    | _, _ => .error (opTypeErr "/" l r)
  else
    -- unreachable from the parser (BinOp only carries + - * /): `result`
    -- stays None in the source
    .ok .none

/-- Lexicographic char-list comparison (Python string ordering). -/
def charsLt : List Char → List Char → Bool
  | [], [] => false
  | [], _ :: _ => true
  | _ :: _, [] => false
  | a :: as_, b :: bs => if a = b then charsLt as_ bs else decide (a < b)

/-- Python `==` between runtime values, with a structural-depth fuel so the
recursion through list elements stays structural (the fuel passed by `pyEqVal`
always exceeds the nesting depth, so the `0` case is unreachable).
Total, `false` across unrelated types; numeric kinds (int/bool/float)
compare by value. -/
def pyEqValD : Nat → PyVal → PyVal → Bool
  | 0, _, _ => false
  | fuel+1, a, b =>
    match a, b with
    | .str x, .str y => x == y
    | .list xs, .list ys =>
        xs.length == ys.length && (xs.zip ys).all (fun p => pyEqValD fuel p.1 p.2)
    | .none, .none => true
    | x, y =>
      match ratV x, ratV y with
      | some u, some v => u == v
      | _, _ => false

/-- Depth budget for comparisons descending into nested lists.  List nesting
deeper than this is unreachable in the claims (arrays are flat; nesting can
only arise from pushing an array onto an array). -/
def cmpDepth : Nat := 64

/-- Python `==` between runtime values. -/
def pyEqVal (a b : PyVal) : Bool := pyEqValD cmpDepth a b

def cmpTypeErr (op : String) (l r : PyVal) : PErr :=
  ⟨.typeErr, "'" ++ op ++ "' not supported between instances of '" ++ typeName l ++ "' and '" ++ typeName r ++ "'"⟩

/-- Python ordering comparison between runtime values (used for `<`, `>`,
`>=`, `<=`): numeric kinds compare by value, strings lexicographically,
lists lexicographically elementwise; other combinations raise TypeError.
Same structural-depth fuel discipline as `pyEqValD`. -/
def pyCmpD (op : String) : Nat → PyVal → PyVal → Except PErr Ordering
  | 0, l, r => .error (cmpTypeErr op l r)
  | fuel+1, a, b =>
    match a, b with
    | .str x, .str y =>
        .ok (if x == y then .eq else if charsLt x.data y.data then .lt else .gt)
    | .list xs, .list ys =>
        let firstNe := (xs.zip ys).findSome? (fun p =>
          match pyCmpD op fuel p.1 p.2 with
          | .ok .eq => Option.none
          | r => some r)
        match firstNe with
        | some r => r
        | Option.none => .ok (compare xs.length ys.length)
    | x, y =>
      match ratV x, ratV y with
      | some u, some v => .ok (compare u v)
      | _, _ => .error (cmpTypeErr op x y)

/-- Python ordering comparison between runtime values. -/
def pyCmp (op : String) (a b : PyVal) : Except PErr Ordering :=
  pyCmpD op cmpDepth a b

/-! ## Lexer (`TOKEN_SPEC`, `tokenize`)

The source builds one combined regex from the ordered `TOKEN_SPEC` list and
matches it at each position; alternatives are tried left to right, so the
keyword patterns win over `ID`, and `OP` wins over the `-` of a negative
number literal (a `NUMBER` token therefore never carries a sign).  The
embedding checks the same patterns in the same order by hand. -/

/-- Token kinds of `TOKEN_SPEC` (SKIP/NEWLINE/COMMENT are consumed but never
emitted, exactly as in `tokenize`). -/
inductive TokType where
  | TRUE | FALSE | NOT | AND | OR | OP | NUMBER | STRING | ID
  | NEWLINE | SKIP | SEMICOLON | COMMA | COMMENT
  deriving DecidableEq, Repr

/-- The token-kind name as interpolated into parser error messages. -/
def tokTypeName : TokType → String
  | .TRUE => "TRUE" | .FALSE => "FALSE" | .NOT => "NOT" | .AND => "AND" | .OR => "OR"
  | .OP => "OP" | .NUMBER => "NUMBER" | .STRING => "STRING" | .ID => "ID"
  | .NEWLINE => "NEWLINE" | .SKIP => "SKIP" | .SEMICOLON => "SEMICOLON"
  | .COMMA => "COMMA" | .COMMENT => "COMMENT"

structure Token where
  type : TokType
  value : String
  deriving DecidableEq, Repr

/-- Python regex `\w` (ASCII range; the scripts are ASCII). -/
def isWordChar (c : Char) : Bool := c.isAlpha || c.isDigit || c = '_'

/-- The char class of the `OP` pattern `[\+\-\*/=<>!]+`. -/
def isOpChar (c : Char) : Bool :=
  c = '+' || c = '-' || c = '*' || c = '/' || c = '=' || c = '<' || c = '>' || c = '!'

/-- Match a keyword pattern `\bKW\b` at the current position (`prev` is the
character just before the position, for the left word boundary). -/
def kwMatch (kw : List Char) (prev : Option Char) (cs : List Char) : Option (List Char) :=
  if cs.take kw.length = kw then
    let boundaryL := match prev with
      | Option.none => true
      | some c => !isWordChar c
    let rest := cs.drop kw.length
    let boundaryR := match rest with
      | [] => true
      | c :: _ => !isWordChar c
    if boundaryL && boundaryR then some rest else Option.none
  else Option.none

/-- Match a quoted string literal starting with quote character `q`
(`"[^"]*"` / `'[^']*'`): the consumed characters include both quotes. -/
def stringMatch (q : Char) (cs : List Char) : Option (List Char × List Char) :=
  match cs with
  | c :: rest =>
      if c = q then
        let body := rest.takeWhile (fun d => d ≠ q)
        match rest.drop body.length with
        | c2 :: rest2 => if c2 = q then some (c :: body ++ [c2], rest2) else Option.none
        | [] => Option.none
      else Option.none
  | [] => Option.none

/-- One step of `tokenize`: the first `TOKEN_SPEC` pattern matching at the
current position, as (kind, consumed characters, rest). -/
def matchTok (prev : Option Char) (cs : List Char) : Option (TokType × List Char × List Char) :=
  match kwMatch ['t','r','u','e'] prev cs with
  | some rest => some (.TRUE, ['t','r','u','e'], rest)
  | Option.none =>
  match kwMatch ['f','a','l','s','e'] prev cs with
  | some rest => some (.FALSE, ['f','a','l','s','e'], rest)
  | Option.none =>
  match kwMatch ['n','o','t'] prev cs with
  | some rest => some (.NOT, ['n','o','t'], rest)
  | Option.none =>
  match kwMatch ['a','n','d'] prev cs with
  | some rest => some (.AND, ['a','n','d'], rest)
  | Option.none =>
  match kwMatch ['o','r'] prev cs with
  | some rest => some (.OR, ['o','r'], rest)
  | Option.none =>
  match cs with
  | [] => Option.none
  | c :: rest =>
    if isOpChar c then
      let more := rest.takeWhile isOpChar
      some (.OP, c :: more, rest.drop more.length)
    else if c.isDigit then
      -- `-?\d+(\.\d+)?`: the sign branch is unreachable (OP matches first)
      let digs := c :: rest.takeWhile Char.isDigit
      let afterInt := rest.drop (digs.length - 1)
      match afterInt with
      | '.' :: d :: _ =>
          if d.isDigit then
            let frac := (afterInt.drop 1).takeWhile Char.isDigit
            some (.NUMBER, digs ++ '.' :: frac, (afterInt.drop 1).drop frac.length)
          else some (.NUMBER, digs, afterInt)
      | _ => some (.NUMBER, digs, afterInt)
    else
      match stringMatch '"' cs with
      | some (tok, rest2) => some (.STRING, tok, rest2)
      | Option.none =>
      match stringMatch '\'' cs with
      | some (tok, rest2) => some (.STRING, tok, rest2)
      | Option.none =>
      if c.isAlpha || c = '_' then
        let more := rest.takeWhile isWordChar
        some (.ID, c :: more, rest.drop more.length)
      else if c = '\n' then some (.NEWLINE, [c], rest)
      else if c = ' ' || c = '\t' then
        let more := rest.takeWhile (fun d => d = ' ' || d = '\t')
        some (.SKIP, c :: more, rest.drop more.length)
      else if c = ';' then some (.SEMICOLON, [c], rest)
      else if c = ',' then some (.COMMA, [c], rest)
      else if c = '#' then
        let more := rest.takeWhile (fun d => d ≠ '\n')
        some (.COMMENT, c :: more, rest.drop more.length)
      else Option.none

/-- `repr(snippet)` as interpolated into the lex error (simplified: quote
handling inside the snippet is not modelled; claims use plain snippets). -/
def pyReprStr (s : String) : String := "'" ++ s ++ "'"

/-- Worker for `tokenize`; fuel is bounded by the input length (every match
consumes at least one character), so the `0` case is unreachable. -/
def tokenizeAux : Nat → Option Char → Nat → List Char → Except PErr (List Token)
  | 0, _, _, _ => .error ⟨.fuelErr, "tokenize fuel exhausted"⟩
  | _, _, _, [] => .ok []
  | fuel+1, prev, pos, cs =>
    match matchTok prev cs with
    | Option.none =>
        .error ⟨.synErr, "Unknown token at position " ++ toString pos ++ ": " ++ pyReprStr ⟨cs.take 10⟩⟩
    | some (typ, consumed, rest) =>
        let prev' := consumed.getLast? <|> prev
        match tokenizeAux fuel prev' (pos + consumed.length) rest with
        | .error e => .error e
        | .ok toks =>
            if typ = .SKIP || typ = .NEWLINE || typ = .COMMENT then .ok toks
            else .ok (⟨typ, ⟨consumed⟩⟩ :: toks)

/-- `tokenize(code)`: source string to token list, or a lexical SyntaxError. -/
def tokenize (code : String) : Except PErr (List Token) :=
  tokenizeAux (code.data.length + 1) Option.none 0 code.data

/-! ## AST

One inductive for all node classes of the source (the Python classes carry
no typing distinction between expressions and statements; `IfElse` bodies
and `Redo` actions can be `None` when the parser ran out of tokens, and
`While`/`Func` bodies are `None` until the block collector fills them in). -/

inductive Node where
  | num (v : PyVal)                                      -- Number (value already converted)
  | strN (s : String)                                    -- StringNode (quotes stripped)
  | boolN (b : Bool)                                     -- BoolNode
  | var (name : String)                                  -- Var (quotes normalized away)
  | binOp (l : Node) (op : String) (r : Node)            -- BinOp
  | notOp (e : Node)                                     -- NotOp
  | assign (name : String) (e : Node)                    -- Assign
  | boolAssign (name : String) (v : Bool)                -- BoolAssign
  | showN (e : Node)                                     -- Show
  | arrayN (values : List Node) (name : String)          -- Array
  | arrayStr (values : List Node) (name : String)        -- ArrayStr
  | get (arrayName : String) (index : Node) (resultVar : Option String)  -- Get
  | leng (name : String)                                 -- Leng
  | push (name : String) (value : Node)                  -- Push
  | pop (name : String)                                  -- Pop
  | ifElse (c : Node) (thenB : Option Node) (elseB : Option Node)  -- IfElse
  | cond (l : Node) (op : String) (r : Node)             -- Cond
  | whileN (c : Node) (body : Option (List String))      -- WhileNode
  | redo (count : Node) (action : Option Node)           -- Redo
  | func (name : String) (body : Option (List String))   -- Func
  | call (name : String)                                 -- Call
  | inputN (prompt : Node) (varname : String)            -- InputNode
  | timeN | dateN | dateTimeN                            -- TimeNode / DateNode / DateTimeNode
  | sleepN (seconds : Node)                              -- Sleep
  | randomN (lo : Node) (hi : Node) (varname : String)   -- RandomNode
  | write (text : Node) (filename : Node)                -- Write
  | readN (filename : Node) (varname : String)           -- Read
  | endN                                                 -- End

/-- The `Number.__init__` conversion: float if the text contains a dot, int
otherwise (token texts are always well formed digit strings, possibly with a
`-` prepended by the parser). -/
def numOfString (s : String) : PyVal :=
  if s.data.contains '.' then
    match pyFloatParse s with
    | .ok q => .float q
    | .error _ => .none  -- unreachable for parser-produced number texts
  else
    match pyIntParse s with
    | .ok n => .int n
    | .error _ => .none  -- unreachable for parser-produced number texts

/-- The `Var.__init__` / `StringNode.__init__` normalization: a leading quote
strips the first and last character. -/
def varNameOf (s : String) : String :=
  match s.data with
  | c :: _ => if c = '\'' || c = '"' then ⟨(s.data.drop 1).dropLast⟩ else s
  | [] => s

/-! ## Parser

The stateful `Parser` (token list plus cursor) is modelled by functions that
consume tokens from the front and return the rest; `self.pos -= 1` in the
command fallback re-prepends the token.  `parse_if` and `parse_redo` are
inlined into `parse_stmt` (their only caller) so that the only recursion is
`parse_stmt` on itself; recursive parser functions take fuel (nesting depth),
whose exhaustion yields the modelling-only `fuelErr`. -/

def eatErr (ln : Nat) (typ : TokType) (tokens : List Token) : PErr :=
  let got := match tokens with
    | [] => "EOF"
    | t :: _ => tokTypeName t.type
  ⟨.synErr, "Line " ++ toString ln ++ ": expected " ++ tokTypeName typ ++ ", got " ++ got⟩

/-- `self.eat(typ)`. -/
def eat (ln : Nat) (typ : TokType) (tokens : List Token) : Except PErr (String × List Token) :=
  match tokens with
  | t :: rest => if t.type = typ then .ok (t.value, rest) else .error (eatErr ln typ tokens)
  | [] => .error (eatErr ln typ tokens)

/-- `parse_var`: a STRING or ID token, as a normalized name. -/
def parse_var (ln : Nat) (tokens : List Token) : Except PErr (String × List Token) :=
  match tokens with
  | t :: rest =>
      if t.type = .STRING || t.type = .ID then .ok (varNameOf t.value, rest)
      else .error ⟨.synErr, "Line " ++ toString ln ++ ": expected variable name (STRING or ID)"⟩
  | [] => .error ⟨.synErr, "Line " ++ toString ln ++ ": expected variable name (STRING or ID)"⟩

/-- `self.current().type` on an empty stream crashes with AttributeError
(`None` has no `.type`); `parse_term` does exactly that. -/
def noneTypeErr : PErr := ⟨.attrErr, "'NoneType' object has no attribute 'type'"⟩

/-- `parse_term`: one factor — number, string, name, boolean, `not` factor,
or `-` factor (a `-` directly followed by a NUMBER makes a negative literal). -/
def parse_term : Nat → Nat → List Token → Except PErr (Node × List Token)
  | 0, _, _ => .error ⟨.fuelErr, "parse fuel exhausted"⟩
  | fuel+1, ln, tokens =>
    match tokens with
    | [] => .error noneTypeErr
    | t :: rest =>
      if t.type = .OP && t.value = "-" then
        match rest with
        | t2 :: rest2 =>
            if t2.type = .NUMBER then .ok (.num (numOfString ("-" ++ t2.value)), rest2)
            else do
              let (e, rest') ← parse_term fuel ln rest
              .ok (.binOp (.num (.int 0)) "-" e, rest')
        | [] => do
            let (e, rest') ← parse_term fuel ln rest
            .ok (.binOp (.num (.int 0)) "-" e, rest')
      else if t.type = .NUMBER then .ok (.num (numOfString t.value), rest)
      else if t.type = .STRING then .ok (.strN (varNameOf t.value), rest)
      else if t.type = .ID then do
        let (name, rest') ← parse_var ln tokens
        .ok (.var name, rest')
      else if t.type = .NOT then do
        let (e, rest') ← parse_term fuel ln rest
        .ok (.notOp e, rest')
      else if t.type = .TRUE then .ok (.boolN true, rest)
      else if t.type = .FALSE then .ok (.boolN false, rest)
      else .error ⟨.synErr, "Line " ++ toString ln ++ ": unexpected token in expression: " ++ tokTypeName t.type⟩

/-- The `while` loop of `parse_expr`: fold further `+ - * /` terms into a
left-nested `BinOp` chain. -/
def parse_expr_loop : Nat → Nat → Node → List Token → Except PErr (Node × List Token)
  | 0, _, _, _ => .error ⟨.fuelErr, "parse fuel exhausted"⟩
  | fuel+1, ln, left, tokens =>
    match tokens with
    | t :: rest =>
        if t.type = .OP && (t.value = "+" || t.value = "-" || t.value = "*" || t.value = "/") then do
          let (right, rest') ← parse_term (fuel+1) ln rest
          parse_expr_loop fuel ln (.binOp left t.value right) rest'
        else .ok (left, tokens)
    | [] => .ok (left, tokens)

/-- `parse_expr`: a single flat left-associative chain of `+ - * /` over
factors (there is no separate precedence level for `*`/`/`). -/
def parse_expr (fuel ln : Nat) (tokens : List Token) : Except PErr (Node × List Token) := do
  let (left, rest) ← parse_term fuel ln tokens
  parse_expr_loop fuel ln left rest

/-- `parse_cond`: an expression, optionally chained with `and`/`or`
(right-associative) or followed by one comparison operator. -/
def parse_cond : Nat → Nat → List Token → Except PErr (Node × List Token)
  | 0, _, _ => .error ⟨.fuelErr, "parse fuel exhausted"⟩
  | fuel+1, ln, tokens => do
    let (left, rest) ← parse_expr (fuel+1) ln tokens
    match rest with
    | t :: rest2 =>
        if t.type = .AND then do
          let (right, rest') ← parse_cond fuel ln rest2
          .ok (.cond left "and" right, rest')
        else if t.type = .OR then do
          let (right, rest') ← parse_cond fuel ln rest2
          .ok (.cond left "or" right, rest')
        else if t.type = .OP then do
          let (right, rest') ← parse_expr (fuel+1) ln rest2
          .ok (.cond left t.value right, rest')
        else .ok (left, rest)
    | [] => .ok (left, rest)

/-- `parse_bool_assign`: `bool NAME [true|false]`, defaulting to False. -/
def parse_bool_assign (ln : Nat) (tokens : List Token) : Except PErr (Node × List Token) := do
  let (name, rest) ← parse_var ln tokens
  match rest with
  | t :: rest2 =>
      if t.type = .TRUE then .ok (.boolAssign name true, rest2)
      else if t.type = .FALSE then .ok (.boolAssign name false, rest2)
      else .ok (.boolAssign name false, rest)
  | [] => .ok (.boolAssign name false, rest)

/-- `str.strip('"')`: remove double quotes from both ends. -/
def stripDQuote (s : String) : String :=
  ⟨((s.data.dropWhile (fun c => c = '"')).reverse.dropWhile (fun c => c = '"')).reverse⟩

/-- `str.strip()` (ASCII whitespace). -/
def pyStrip (s : String) : String :=
  ⟨((s.data.dropWhile Char.isWhitespace).reverse.dropWhile Char.isWhitespace).reverse⟩

/-- The numeric-literal filter of `parse_array`: keep a comma-separated item
if it is all digits after deleting every `-`, or is `-` followed by digits;
accepted items pass through `int()` (which can raise for items like `1-2`). -/
def parse_array_values (items : List String) : Except PErr (List Node) :=
  match items with
  | [] => .ok []
  | it :: rest => do
      let v := pyStrip it
      let keep := v ≠ "" &&
        (pyIsDigit (removeChar '-' v) ||
         ((v.data.filter (fun c => c = '-')).length = 1 && v.data.head? = some '-' && pyIsDigit ⟨v.data.drop 1⟩))
      if keep then
        match pyIntParse v with
        | .ok n => do
            let tail ← parse_array_values rest
            .ok (.num (.int n) :: tail)
        | .error e => .error e
      else parse_array_values rest

/-- `parse_array`: `array "v1,v2,..." NAME` building a numeric array literal. -/
def parse_array (ln : Nat) (tokens : List Token) : Except PErr (Node × List Token) :=
  match tokens with
  | t :: rest =>
      if t.type = .STRING then do
        let valuesStr := stripDQuote t.value
        let values ← parse_array_values (valuesStr.splitOn ",")
        let (name, rest') ← parse_var ln rest
        .ok (.arrayN values name, rest')
      else .error ⟨.synErr, "Line " ++ toString ln ++ ": expected string with array values"⟩
  | [] => .error ⟨.synErr, "Line " ++ toString ln ++ ": expected string with array values"⟩

/-- The STRING/COMMA gathering loop of `parse_array_str`. -/
def parse_array_str_loop : List Token → (List Node × List Token)
  | t :: rest =>
      if t.type = .STRING then
        let (vs, rest') := parse_array_str_loop rest
        (.strN (varNameOf t.value) :: vs, rest')
      else if t.type = .COMMA then parse_array_str_loop rest
      else ([], t :: rest)
  | [] => ([], [])

/-- `parse_array_str`: comma-separated string literals, then the array name. -/
def parse_array_str (ln : Nat) (tokens : List Token) : Except PErr (Node × List Token) := do
  let (values, rest) := parse_array_str_loop tokens
  let (name, rest') ← parse_var ln rest
  .ok (.arrayStr values name, rest')

/-- `parse_get`: `get ARRAY INDEXEXPR [= VAR]`. -/
def parse_get (fuel ln : Nat) (tokens : List Token) : Except PErr (Node × List Token) := do
  let (arrayName, rest) ← parse_var ln tokens
  let (index, rest2) ← parse_expr fuel ln rest
  match rest2 with
  | t :: _ =>
      if t.value = "=" then do
        let (_, rest3) ← eat ln .OP rest2
        let (rv, rest4) ← parse_var ln rest3
        .ok (.get arrayName index (some rv), rest4)
      else .ok (.get arrayName index Option.none, rest2)
  | [] => .ok (.get arrayName index Option.none, rest2)

/-- `parse_input`: `input PROMPTEXPR = VAR`. -/
def parse_input (fuel ln : Nat) (tokens : List Token) : Except PErr (Node × List Token) := do
  let (prompt, rest) ← parse_expr fuel ln tokens
  match rest with
  | t :: _ =>
      if t.value = "=" then do
        let (_, rest2) ← eat ln .OP rest
        let (vn, rest3) ← parse_var ln rest2
        .ok (.inputN prompt vn, rest3)
      else .error ⟨.synErr, "Line " ++ toString ln ++ ": expected '=' after input"⟩
  | [] => .error ⟨.synErr, "Line " ++ toString ln ++ ": expected '=' after input"⟩

/-- `parse_random`: `random LOEXPR HIEXPR = VAR`. -/
def parse_random (fuel ln : Nat) (tokens : List Token) : Except PErr (Node × List Token) := do
  let (lo, rest) ← parse_expr fuel ln tokens
  let (hi, rest2) ← parse_expr fuel ln rest
  match rest2 with
  | t :: _ =>
      if t.value = "=" then do
        let (_, rest3) ← eat ln .OP rest2
        let (vn, rest4) ← parse_var ln rest3
        .ok (.randomN lo hi vn, rest4)
      else .error ⟨.synErr, "Line " ++ toString ln ++ ": expected '=' after random"⟩
  | [] => .error ⟨.synErr, "Line " ++ toString ln ++ ": expected '=' after random"⟩

/-- `parse_read`: `read FILENAMEEXPR = VAR`. -/
def parse_read (fuel ln : Nat) (tokens : List Token) : Except PErr (Node × List Token) := do
  let (fn, rest) ← parse_expr fuel ln tokens
  match rest with
  | t :: _ =>
      if t.value = "=" then do
        let (_, rest2) ← eat ln .OP rest
        let (vn, rest3) ← parse_var ln rest2
        .ok (.readN fn vn, rest3)
      else .error ⟨.synErr, "Line " ++ toString ln ++ ": expected '=' after read"⟩
  | [] => .error ⟨.synErr, "Line " ++ toString ln ++ ": expected '=' after read"⟩

/-- The trailing `= NAME` assignment applied to a bare expression statement. -/
def stmt_assign_tail (ln : Nat) (expr : Node) (rest : List Token) : Except PErr (Option Node × List Token) :=
  match rest with
  | t :: _ =>
      if t.type = .OP && t.value = "=" then do
        let (_, rest2) ← eat ln .OP rest
        let (name, rest3) ← parse_var ln rest2
        .ok (some (.assign name expr), rest3)
      else .ok (some expr, rest)
  | [] => .ok (some expr, rest)

/-- `parse_stmt` (and the `parse` entry point): one statement or bare
expression.  Returns `none` when the token stream is empty.  `parse_if` and
`parse_redo` are inlined here, being its only recursive callers. -/
def parse_stmt : Nat → Nat → List Token → Except PErr (Option Node × List Token)
  | 0, _, _ => .error ⟨.fuelErr, "parse fuel exhausted"⟩
  | fuel+1, ln, tokens =>
    match tokens with
    | [] => .ok (Option.none, [])
    | t :: rest =>
      if t.type = .ID then
        let cmd := t.value
        if cmd = "show" then do
          let (e, rest') ← parse_expr (fuel+1) ln rest
          .ok (some (.showN e), rest')
        else if cmd = "int" then do
          let (name, rest1) ← parse_var ln rest
          match rest1 with
          | t2 :: rest2 =>
              if t2.type = .OP && t2.value = "-" then
                match rest2 with
                | t3 :: rest3 =>
                    if t3.type = .NUMBER then
                      .ok (some (.assign name (.num (numOfString ("-" ++ t3.value)))), rest3)
                    else .error ⟨.synErr, "Line " ++ toString ln ++ ": expected number after '-'"⟩
                | [] => .error ⟨.synErr, "Line " ++ toString ln ++ ": expected number after '-'"⟩
              else if t2.type = .NUMBER then
                .ok (some (.assign name (.num (numOfString t2.value))), rest2)
              else do
                let (e, rest') ← parse_expr (fuel+1) ln rest1
                .ok (some (.assign name e), rest')
          | [] => do
              let (e, rest') ← parse_expr (fuel+1) ln rest1
              .ok (some (.assign name e), rest')
        else if cmd = "bool" then do
          let (n, rest') ← parse_bool_assign ln rest
          .ok (some n, rest')
        else if cmd = "array" then do
          let (n, rest') ← parse_array ln rest
          .ok (some n, rest')
        else if cmd = "array_str" then do
          let (n, rest') ← parse_array_str ln rest
          .ok (some n, rest')
        else if cmd = "get" then do
          let (n, rest') ← parse_get (fuel+1) ln rest
          .ok (some n, rest')
        else if cmd = "leng" then do
          let (name, rest') ← parse_var ln rest
          .ok (some (.leng name), rest')
        else if cmd = "push" then do
          let (name, rest1) ← parse_var ln rest
          let (v, rest') ← parse_expr (fuel+1) ln rest1
          .ok (some (.push name v), rest')
        else if cmd = "pop" then do
          let (name, rest') ← parse_var ln rest
          .ok (some (.pop name), rest')
        else if cmd = "if" then do
          -- parse_if, inlined
          let (c, rest1) ← parse_cond (fuel+1) ln rest
          let (thenB, rest2) ← parse_stmt fuel ln rest1
          match rest2 with
          | t2 :: _ =>
              if t2.value = "else" then do
                let (_, rest3) ← eat ln .ID rest2
                let (elseB, rest4) ← parse_stmt fuel ln rest3
                .ok (some (.ifElse c thenB elseB), rest4)
              else .ok (some (.ifElse c thenB Option.none), rest2)
          | [] => .ok (some (.ifElse c thenB Option.none), rest2)
        else if cmd = "while" then do
          let (c, rest') ← parse_cond (fuel+1) ln rest
          .ok (some (.whileN c Option.none), rest')
        else if cmd = "redo" then do
          -- parse_redo, inlined
          let (count, rest1) ← parse_expr (fuel+1) ln rest
          let (action, rest2) ← parse_stmt fuel ln rest1
          .ok (some (.redo count action), rest2)
        else if cmd = "func" then do
          let (name, rest') ← parse_var ln rest
          .ok (some (.func name Option.none), rest')
        else if cmd = "call" then do
          let (name, rest') ← parse_var ln rest
          .ok (some (.call name), rest')
        else if cmd = "input" then do
          let (n, rest') ← parse_input (fuel+1) ln rest
          .ok (some n, rest')
        else if cmd = "time" then .ok (some .timeN, rest)
        else if cmd = "date" then .ok (some .dateN, rest)
        else if cmd = "datetime" then .ok (some .dateTimeN, rest)
        else if cmd = "sleep" then do
          let (e, rest') ← parse_expr (fuel+1) ln rest
          .ok (some (.sleepN e), rest')
        else if cmd = "random" then do
          let (n, rest') ← parse_random (fuel+1) ln rest
          .ok (some n, rest')
        else if cmd = "write" then do
          let (txt, rest1) ← parse_expr (fuel+1) ln rest
          let (fn, rest') ← parse_expr (fuel+1) ln rest1
          .ok (some (.write txt fn), rest')
        else if cmd = "read" then do
          let (n, rest') ← parse_read (fuel+1) ln rest
          .ok (some n, rest')
        else if cmd = "END" then .ok (some .endN, rest)
        else do
          -- fall back: `self.pos -= 1`, parse as expression / assignment
          let (e, rest') ← parse_expr (fuel+1) ln (t :: rest)
          stmt_assign_tail ln e rest'
      else if t.type = .NUMBER || t.type = .STRING || t.type = .NOT || t.type = .OP then do
        let (e, rest') ← parse_expr (fuel+1) ln (t :: rest)
        stmt_assign_tail ln e rest'
      else
        .error ⟨.synErr, "Line " ++ toString ln ++ ": unknown command or expression: " ++ t.value⟩

/-- `Parser.parse()`. -/
def parse (fuel ln : Nat) (tokens : List Token) : Except PErr (Option Node × List Token) :=
  parse_stmt fuel ln tokens

/-- `parse_while`: just the condition header; the body comes from the block
collector. -/
def parse_while (fuel ln : Nat) (tokens : List Token) : Except PErr (Node × List Token) := do
  let (c, rest) ← parse_cond fuel ln tokens
  .ok (.whileN c Option.none, rest)

/-- `parse_func`: just the function name header. -/
def parse_func (ln : Nat) (tokens : List Token) : Except PErr (Node × List Token) := do
  let (name, rest) ← parse_var ln tokens
  .ok (.func name Option.none, rest)

/-! ## Environment and expression evaluation

The four module-level dictionaries (`variables`, `arrays`, `arrays_str`,
`functions`) are modelled as association lists consulted at the first
matching key; `d[k] = v` replaces the first binding or appends a new one. -/

/-- `k in d` / `d[k]` on a modelled dictionary. -/
def lookupA {α : Type} (k : String) : List (String × α) → Option α
  | [] => Option.none
  | (k', v) :: rest => if k' = k then some v else lookupA k rest

/-- `d[k] = v` on a modelled dictionary. -/
def insertA {α : Type} (k : String) (v : α) : List (String × α) → List (String × α)
  | [] => [(k, v)]
  | (k', v') :: rest => if k' = k then (k', v) :: rest else (k', v') :: insertA k v rest

/-- The mutable global store: scalar variables, numeric arrays, string
arrays, and the procedure table (bodies are raw source lines; a body is
`None` when `func` was parsed outside the block collector). -/
structure EnvT where
  vars : List (String × PyVal)      -- `variables`
  arrays : List (String × List PyVal)
  arrays_str : List (String × List PyVal)
  functions : List (String × Option (List String))

/-- The Python class name of a node, for `Unknown … node type` messages. -/
def pyClassName : Node → String
  | .num _ => "Number" | .strN _ => "StringNode" | .boolN _ => "BoolNode"
  | .var _ => "Var" | .binOp _ _ _ => "BinOp" | .notOp _ => "NotOp"
  | .assign _ _ => "Assign" | .boolAssign _ _ => "BoolAssign" | .showN _ => "Show"
  | .arrayN _ _ => "Array" | .arrayStr _ _ => "ArrayStr" | .get _ _ _ => "Get"
  | .leng _ => "Leng" | .push _ _ => "Push" | .pop _ => "Pop"
  | .ifElse _ _ _ => "IfElse" | .cond _ _ _ => "Cond" | .whileN _ _ => "WhileNode"
  | .redo _ _ => "Redo" | .func _ _ => "Func" | .call _ => "Call"
  | .inputN _ _ => "InputNode" | .timeN => "TimeNode" | .dateN => "DateNode"
  | .dateTimeN => "DateTimeNode" | .sleepN _ => "Sleep" | .randomN _ _ _ => "RandomNode"
  | .write _ _ => "Write" | .readN _ _ => "Read" | .endN => "End"

/-- `v is None`. -/
def isNoneV : PyVal → Bool
  | .none => true
  | _ => false

def unknownExprErr (n : Node) : PErr :=
  ⟨.typeErr, "Unknown expression node type: <class '__main__." ++ pyClassName n ++ "'>"⟩

/-- `eval_expr`: evaluate an expression node.  A `Var` consults scalar
variables, then numeric arrays, then string arrays, in that order; `not`
demands an actual boolean; a `BinOp` whose operands are both int-instances
passes its result through `int()`. -/
def eval_expr (env : EnvT) : Node → Except PErr PyVal
  | .num v => .ok v
  | .strN s => .ok (.str s)
  | .boolN b => .ok (.bool b)
  | .var name =>
    match lookupA name env.vars with
    | some v => .ok v
    | Option.none =>
      match lookupA name env.arrays with
      | some arr => .ok (.list arr)
      | Option.none =>
        match lookupA name env.arrays_str with
        | some arr => .ok (.list arr)
        | Option.none => .error ⟨.nameErr, "No variable/array named: " ++ name⟩
  | .binOp l op r => do
      let left ← eval_expr env l
      let right ← eval_expr env r
      let result ← eval_binop op left right
      if isIntInst left && isIntInst right then do
        let n ← pyToInt result
        .ok (.int n)
      else .ok result
  | .notOp e => do
      let v ← eval_expr env e
      match v with
      | .bool b => .ok (.bool !b)
      | _ => .error ⟨.valueErr, "Operator 'not' requires a boolean value"⟩
  | n => .error (unknownExprErr n)

/-- The numeric-looking-string test applied before comparison coercion:
`s.replace('-', '').replace('.', '').isdigit()`. -/
def numericLooking (s : String) : Bool :=
  pyIsDigit (removeChar '.' (removeChar '-' s))

/-- The coercion applied to a numeric-looking string operand:
`float(s)` if it contains a dot, else `int(s)` (either can raise). -/
def coerceNumStr (s : String) : Except PErr PyVal :=
  if s.data.contains '.' then do
    let q ← pyFloatParse s
    .ok (.float q)
  else do
    let n ← pyIntParse s
    .ok (.int n)

/-- `eval_cond`: condition evaluation for `if`/`while`.  `and`/`or` evaluate
both sides as conditions and combine their truthiness; the six comparison
operators `= != > < >= <=` compare after an optional numeric-string
coercion; any other operator (`==` included) falls through to
`bool(eval_expr(cond))`, which raises TypeError on a `Cond` node; a
non-`Cond` condition is evaluated by truthiness. -/
def eval_cond (env : EnvT) : Node → Except PErr Bool
  | .notOp e => do
      let b ← eval_cond env e
      .ok !b
  | .cond l op r =>
    if op == "and" || op == "or" then do
      let lb ← eval_cond env l
      let rb ← eval_cond env r
      .ok (if op == "and" then lb && rb else lb || rb)
    else do
      let lv ← eval_expr env l
      let rv ← eval_expr env r
      if !isNoneV rv &&
         (op == "=" || op == "!=" || op == ">" || op == "<" || op == ">=" || op == "<=") then do
        let (lv, rv) ←
          match lv, rv with
          | a, .str s =>
              if isNumInst a && numericLooking s then do
                let rv' ← coerceNumStr s
                pure (a, rv')
              else pure (lv, rv)
          | .str s, b =>
              if isNumInst b && numericLooking s then do
                let lv' ← coerceNumStr s
                pure (lv', b)
              else pure (lv, rv)
          | _, _ => pure (lv, rv)
        if op == "=" then .ok (pyEqVal lv rv)
        else if op == "!=" then .ok (!pyEqVal lv rv)
        else if op == ">" then do
          let c ← pyCmp ">" lv rv
          .ok (c == .gt)
        else if op == "<" then do
          let c ← pyCmp "<" lv rv
          .ok (c == .lt)
        else if op == ">=" then do
          let c ← pyCmp ">=" lv rv
          .ok (c != .lt)
        else do
          let c ← pyCmp "<=" lv rv
          .ok (c != .gt)
      else
        -- `return bool(eval_expr(cond))` on the whole Cond node: TypeError
        .error (unknownExprErr (.cond l op r))
  | c => do
      let v ← eval_expr env c
      .ok (pyBool v)

/-! ## Runtime state and the statement runner

`run_node` / `run_line` and the loops inside them are combined into one
fuel-indexed function `run` over a `Job` sum, so that the whole interpreter
is a single structural recursion (and therefore kernel-reducible).  A result
of `none` means the modelling fuel ran out; `some (s, some e)` means the
Python exception `e` is propagating out of the modelled call. -/

/-- The external world and mutable interpreter state: the Environment,
the `stop_program` flag, everything printed so far, the scratch-directory
file system, pending stdin lines, a clock snapshot and a stream of external
random draws. -/
structure State where
  env : EnvT
  stopProgram : Bool
  output : List String
  files : List (String × String)
  stdinB : List String
  nowT : Int
  dateS : String
  dateTimeS : String
  rands : List Int

def setVar (s : State) (name : String) (v : PyVal) : State :=
  {s with env := {s.env with vars := insertA name v s.env.vars}}

def setArrays (s : State) (name : String) (a : List PyVal) : State :=
  {s with env := {s.env with arrays := insertA name a s.env.arrays}}

def setArraysStr (s : State) (name : String) (a : List PyVal) : State :=
  {s with env := {s.env with arrays_str := insertA name a s.env.arrays_str}}

/-- `print(...)`: append one line to the output. -/
def pushOut (s : State) (msg : String) : State :=
  {s with output := s.output ++ [msg]}

/-- The `[ERROR] Line n: e` report printed by `run_node`'s exception handler. -/
def errLine (ln : Nat) (e : PErr) : String :=
  "[ERROR] Line " ++ toString ln ++ ": " ++ e.msg

/-- `tempfile.gettempdir()`, modelled as the POSIX default. -/
def TMP_DIR : String := "/tmp"

/-- `MAX_ITERATIONS`: safety cap for while loops. -/
def MAX_ITERATIONS : Nat := 1000

def strStartsWith (s p : String) : Bool := s.data.take p.data.length == p.data

def strDrop (n : Nat) (s : String) : String := ⟨s.data.drop n⟩

/-- Two-argument POSIX `os.path.join`: an absolute second argument replaces
the first entirely; otherwise a single separator joins them. -/
def os_path_join (a b : String) : String :=
  if strStartsWith b "/" then b
  else if a = "" || a.data.getLast? = some '/' then a ++ b
  else a ++ "/" ++ b

/-- `str.split(c)` (single-character separator). -/
def splitChar (c : Char) : List Char → List (List Char)
  | [] => [[]]
  | d :: rest =>
    let r := splitChar c rest
    if d = c then [] :: r
    else
      match r with
      | h :: t => (d :: h) :: t
      | [] => [[d]]

/-- `list.pop()`: the last element and the remaining list. -/
def popList (l : List PyVal) : Option (PyVal × List PyVal) :=
  match l.reverse with
  | [] => Option.none
  | x :: rev => some (x, rev.reverse)

/-- Evaluate a list of nodes left to right (array literal values). -/
def evalList (env : EnvT) : List Node → Except PErr (List PyVal)
  | [] => .ok []
  | n :: rest => do
      let v ← eval_expr env n
      let vs ← evalList env rest
      .ok (v :: vs)

/-- The push coercion: a numeric-looking string becomes an int
(`value.replace('-','').isdigit()` then `int(value)`, which may raise). -/
def pushCoerce (v : PyVal) : Except PErr PyVal :=
  match v with
  | .str s =>
      if pyIsDigit (removeChar '-' s) then do
        let n ← pyIntParse s
        .ok (.int n)
      else .ok v
  | _ => .ok v

/-- One external random draw mapped into `[lo, hi]` (`random.randint`;
the draw stream stands for the external RNG). -/
def pickRand (r lo hi : Int) : Int := lo + (r - lo).emod (hi - lo + 1)

/-- The work items of the interpreter loop: full `run_node` (with its
exception handler), the handler-free dispatch body, `run_line`, the
semicolon sub-statement loop, sequential body lines (while bodies and
function bodies, line numbers increasing), the while loop, and the redo
loop. -/
inductive Job where
  | node (n : Option Node) (ln : Nat)
  | nodeCore (n : Option Node) (ln : Nat)
  | line (l : String) (ln : Nat)
  | semi (parts : List String) (ln : Nat)
  | lines (ls : List String) (base : Nat)
  | whileLoop (c : Node) (body : Option (List String)) (ln : Nat) (count : Nat)
  | redoLoop (action : Option Node) (ln : Nat) (k : Nat)

/-- The interpreter: `run fuel job s` is `none` on fuel exhaustion, else the
final state together with the exception propagating out of the job (if any).
`run_node` (`Job.node`) catches every exception of its body and prints an
`[ERROR]` line instead, so it never propagates one. -/
def run : Nat → Job → State → Option (State × Option PErr)
  | 0, _, _ => Option.none
  | fuel+1, job, s =>
    match job with
    | .node n ln =>
      -- `run_node`: the stop_program check, then the body in a try/except
      if s.stopProgram then some (s, Option.none)
      else
        match run fuel (.nodeCore n ln) s with
        | Option.none => Option.none
        | some (s', some e) => some (pushOut s' (errLine ln e), Option.none)
        | some (s', Option.none) => some (s', Option.none)
    | .nodeCore n ln =>
      match n with
      | Option.none => some (s, some ⟨.typeErr, "Unknown node type: <class 'NoneType'>"⟩)
      | some node =>
        match node with
        | .cond l op r =>
          match eval_cond s.env (.cond l op r) with
          | .error e => some (s, some e)
          | .ok _ => some (s, Option.none)
        | .notOp e =>
          match eval_cond s.env e with
          | .error err => some (s, some err)
          | .ok _ => some (s, Option.none)
        | .assign name e =>
          match eval_expr s.env e with
          | .error err => some (s, some err)
          | .ok v => some (setVar s name v, Option.none)
        | .boolAssign name b => some (setVar s name (.bool b), Option.none)
        | .showN e =>
          match eval_expr s.env e with
          | .error err => some (s, some err)
          | .ok v => some (pushOut s (pyStr v), Option.none)
        | .arrayN values name =>
          match evalList s.env values with
          | .error err => some (s, some err)
          | .ok vs => some (setArrays s name vs, Option.none)
        | .arrayStr values name =>
          match evalList s.env values with
          | .error err => some (s, some err)
          | .ok vs => some (setArraysStr s name vs, Option.none)
        | .get name idx rv =>
          let arr? :=
            match lookupA name s.env.arrays with
            | some arr => some arr
            | Option.none => lookupA name s.env.arrays_str
          match arr? with
          | Option.none => some (s, some ⟨.nameErr, "No array named: " ++ name⟩)
          | some arr =>
            match (do let v ← eval_expr s.env idx; pyToInt v : Except PErr Int) with
            | .error err => some (s, some err)
            | .ok i =>
              if i < 0 || (arr.length : Int) ≤ i then
                some (s, some ⟨.indexErr, "Invalid index: " ++ toString i⟩)
              else
                let value := (arr.get? i.toNat).getD .none
                match rv with
                | some r => some (setVar s r value, Option.none)
                | Option.none => some (pushOut s (pyStr value), Option.none)
        | .leng name =>
          match lookupA name s.env.arrays with
          | some arr => some (pushOut s (toString arr.length), Option.none)
          | Option.none =>
            match lookupA name s.env.arrays_str with
            | some arr => some (pushOut s (toString arr.length), Option.none)
            | Option.none => some (s, some ⟨.nameErr, "No array named: " ++ name⟩)
        | .push name vexpr =>
          match (do let v ← eval_expr s.env vexpr; pushCoerce v : Except PErr PyVal) with
          | .error err => some (s, some err)
          | .ok v =>
            match lookupA name s.env.arrays with
            | some arr => some (setArrays s name (arr ++ [v]), Option.none)
            | Option.none =>
              match lookupA name s.env.arrays_str with
              | some arr => some (setArraysStr s name (arr ++ [v]), Option.none)
              | Option.none => some (s, some ⟨.nameErr, "No array named: " ++ name⟩)
        | .pop name =>
          match lookupA name s.env.arrays with
          | some arr =>
            match popList arr with
            | some (v, rest) => some (pushOut (setArrays s name rest) (pyStr v), Option.none)
            | Option.none => some (s, some ⟨.indexErr, "Empty array"⟩)
          | Option.none =>
            match lookupA name s.env.arrays_str with
            | some arr =>
              match popList arr with
              | some (v, rest) => some (pushOut (setArraysStr s name rest) (pyStr v), Option.none)
              | Option.none => some (s, some ⟨.indexErr, "Empty array"⟩)
            | Option.none => some (s, some ⟨.nameErr, "No array named: " ++ name⟩)
        | .ifElse c thenB elseB =>
          match eval_cond s.env c with
          | .error err => some (s, some err)
          | .ok true => run fuel (.node thenB ln) s
          | .ok false =>
            match elseB with
            | some eb => run fuel (.node (some eb) ln) s
            | Option.none => some (s, Option.none)
        | .whileN c body => run fuel (.whileLoop c body ln 0) s
        | .redo count action =>
          match (do let v ← eval_expr s.env count; pyToInt v : Except PErr Int) with
          | .error err => some (s, some err)
          | .ok n => run fuel (.redoLoop action ln n.toNat) s
        | .func name body =>
          some ({s with env := {s.env with functions := insertA name body s.env.functions}}, Option.none)
        | .call name =>
          match lookupA name s.env.functions with
          | some (some body) => run fuel (.lines body (ln+1)) s
          | some Option.none => some (s, some ⟨.typeErr, "'NoneType' object is not iterable"⟩)
          | Option.none => some (s, some ⟨.nameErr, "No function named: " ++ name⟩)
        | .inputN prompt vn =>
          match eval_expr s.env prompt with
          | .error err => some (s, some err)
          | .ok p =>
            match s.stdinB with
            | [] => some (s, some ⟨.eofErr, "EOF when reading a line"⟩)
            | x :: rest =>
                some (setVar {pushOut s (pyStr p) with stdinB := rest} vn (.str x), Option.none)
        | .write txt fn =>
          match eval_expr s.env txt with
          | .error err => some (s, some err)
          | .ok tv =>
            match eval_expr s.env fn with
            | .error err => some (s, some err)
            | .ok fv =>
              match fv with
              | .str fname =>
                  let path := os_path_join TMP_DIR fname
                  some ({s with files := insertA path (pyStr tv) s.files}, Option.none)
              | other =>
                  some (s, some ⟨.typeErr,
                    "join() argument must be str, not '" ++ typeName other ++ "'"⟩)
        | .readN fn vn =>
          match eval_expr s.env fn with
          | .error err => some (s, some err)
          | .ok fv =>
            match fv with
            | .str fname =>
              let path := os_path_join TMP_DIR fname
              match lookupA path s.files with
              | some content => some (setVar s vn (.str content), Option.none)
              | Option.none => some (s, some ⟨.fileErr, "No file named: " ++ fname⟩)
            | other =>
                some (s, some ⟨.typeErr,
                  "join() argument must be str, not '" ++ typeName other ++ "'"⟩)
        | .timeN => some (pushOut s (toString s.nowT), Option.none)
        | .dateN => some (pushOut s s.dateS, Option.none)
        | .dateTimeN => some (pushOut s s.dateTimeS, Option.none)
        | .sleepN e =>
          match eval_expr s.env e with
          | .error err => some (s, some err)
          | .ok v =>
            match ratV v with
            | some q =>
                if q < 0 then some (s, some ⟨.valueErr, "sleep length must be non-negative"⟩)
                else some (s, Option.none)
            | Option.none => some (s, some ⟨.typeErr, "an integer is required (got type " ++ typeName v ++ ")"⟩)
        | .randomN lo hi vn =>
          match eval_expr s.env lo with
          | .error err => some (s, some err)
          | .ok a =>
            match eval_expr s.env hi with
            | .error err => some (s, some err)
            | .ok b =>
              match pyCmp ">" a b with
              | .error err => some (s, some err)
              | .ok .gt => some (s, some ⟨.valueErr, "Start greater than end in random"⟩)
              | .ok _ =>
                match (do let x ← pyToInt a; let y ← pyToInt b; pure (x, y) : Except PErr (Int × Int)) with
                | .error err => some (s, some err)
                | .ok (x, y) =>
                  if y < x then
                    some (s, some ⟨.valueErr, "empty range for randrange()"⟩)
                  else
                    let r := s.rands.headD 0
                    some (setVar {s with rands := s.rands.drop 1} vn (.int (pickRand r x y)), Option.none)
        | .endN => some ({s with stopProgram := true}, Option.none)
        | .binOp l op r =>
          match eval_expr s.env (.binOp l op r) with
          | .error err => some (s, some err)
          | .ok v => some (pushOut s (pyStr v), Option.none)
        | .num v =>
          match eval_expr s.env (.num v) with
          | .error err => some (s, some err)
          | .ok v' => some (pushOut s (pyStr v'), Option.none)
        | .var name =>
          match eval_expr s.env (.var name) with
          | .error err => some (s, some err)
          | .ok v => some (pushOut s (pyStr v), Option.none)
        | other =>
          some (s, some ⟨.typeErr, "Unknown node type: <class '__main__." ++ pyClassName other ++ "'>"⟩)
    | .line l ln =>
      let st := pyStrip l
      if st = "" || st.data.head? = some '#' then some (s, Option.none)
      else if st.data.contains ';' then
        run fuel (.semi ((splitChar ';' st.data).map (fun cs => pyStrip ⟨cs⟩)) ln) s
      else
        match tokenize st with
        | .error e => some (s, some e)
        | .ok toks =>
          match parse (toks.length + 1) ln toks with
          | .error e => some (s, some e)
          | .ok (n?, _) => run fuel (.node n? ln) s
    | .semi parts ln =>
      match parts with
      | [] => some (s, Option.none)
      | p :: rest =>
        match run fuel (.line p ln) s with
        | Option.none => Option.none
        | some (s', some e) => some (s', some e)
        | some (s', Option.none) => run fuel (.semi rest ln) s'
    | .lines ls base =>
      match ls with
      | [] => some (s, Option.none)
      | l :: rest =>
        match run fuel (.line l base) s with
        | Option.none => Option.none
        | some (s', some e) => some (s', some e)
        | some (s', Option.none) => run fuel (.lines rest (base+1)) s'
    | .whileLoop c body ln count =>
      match eval_cond s.env c with
      | .error e => some (s, some e)
      | .ok false => some (s, Option.none)
      | .ok true =>
        if MAX_ITERATIONS ≤ count then
          some (s, some ⟨.runtimeErr,
            "Line " ++ toString ln ++ ": exceeded iteration limit (" ++ toString MAX_ITERATIONS ++ ") in while loop"⟩)
        else
          match body with
          | Option.none => some (s, some ⟨.typeErr, "'NoneType' object is not iterable"⟩)
          | some bodyLines =>
            match run fuel (.lines bodyLines (ln+1)) s with
            | Option.none => Option.none
            | some (s', some e) => some (s', some e)
            | some (s', Option.none) => run fuel (.whileLoop c body ln (count+1)) s'
    | .redoLoop action ln k =>
      match k with
      | 0 => some (s, Option.none)
      | k'+1 =>
        match run fuel (.node action ln) s with
        | Option.none => Option.none
        | some (s', some e) => some (s', some e)
        | some (s', Option.none) => run fuel (.redoLoop action ln k') s'

/-- `run_node(node, line_number)`. -/
def run_node (fuel : Nat) (n : Option Node) (ln : Nat) (s : State) : Option (State × Option PErr) :=
  run fuel (.node n ln) s

/-- `run_line(line, line_number)`. -/
def run_line (fuel : Nat) (l : String) (ln : Nat) (s : State) : Option (State × Option PErr) :=
  run fuel (.line l ln) s

/-! ## The file driver `run_file` -/

/-- The body-collection loop shared by the `func` and `while` branches of
`run_file`: gather stripped nonblank lines up to one starting with `done`,
returning (body, the remaining lines starting at the `done` line, the number
of lines consumed before it).  An empty remainder means `done` was missing. -/
def collectBody : List String → (List String × List String × Nat)
  | [] => ([], [], 0)
  | l :: rest =>
    let st := pyStrip l
    if strStartsWith st "done" then ([], l :: rest, 0)
    else
      let (b, r, n) := collectBody rest
      ((if st = "" then b else st :: b), r, n+1)

def funcHdrName : Node → String
  | .func name _ => name
  | _ => ""

def withWhileBody (n : Node) (body : List String) : Node :=
  match n with
  | .whileN c _ => .whileN c (some body)
  | x => x

/-- The main loop of `run_file`: blank lines are skipped; `func `/`while `
headers open a block collected up to `done` (header lex/parse errors and a
missing `done` are caught and reported); every other line goes through
`run_line` WITHOUT a handler, so an exception it raises (for example a lex
or parse error) propagates and aborts the rest of the file. -/
def runFileLoop : Nat → List String → Nat → State → Option (State × Option PErr)
  | 0, _, _, _ => Option.none
  | fuel+1, lns, ln, s =>
    match lns with
    | [] => some (s, Option.none)
    | l :: rest =>
      let line := pyStrip l
      if line = "" then runFileLoop fuel rest (ln+1) s
      else if strStartsWith line "func " then
        match (do let toks ← tokenize (pyStrip (strDrop 5 line)); parse_func ln toks) with
        | .error e =>
            runFileLoop fuel rest (ln+1)
              (pushOut s ("[ERROR] Line " ++ toString ln ++ ": error in function definition: " ++ e.msg))
        | .ok (fnode, _) =>
          let (body, restD, consumed) := collectBody rest
          match restD with
          | [] =>
              some (pushOut s ("[ERROR] Line " ++ toString (ln + 1 + consumed) ++
                ": missing 'done' for function '" ++ funcHdrName fnode ++ "'"), Option.none)
          | _ :: tailRest =>
            match run fuel (.node (some (.func (funcHdrName fnode) (some body))) (ln + 1 + consumed)) s with
            | Option.none => Option.none
            | some (s', _) => runFileLoop fuel tailRest (ln + 1 + consumed + 1) s'
      else if strStartsWith line "while " then
        match (do
            let toks ← tokenize (pyStrip (strDrop 6 line))
            parse_while (toks.length + 1) ln toks) with
        | .error e =>
            runFileLoop fuel rest (ln+1)
              (pushOut s ("[ERROR] Line " ++ toString ln ++ ": error in while loop: " ++ e.msg))
        | .ok (wnode, _) =>
          let (body, restD, consumed) := collectBody rest
          match restD with
          | [] =>
              some (pushOut s ("[ERROR] Line " ++ toString (ln + 1 + consumed) ++
                ": missing 'done' for while loop"), Option.none)
          | _ :: tailRest =>
            match run fuel (.node (some (withWhileBody wnode body)) (ln + 1)) s with
            | Option.none => Option.none
            | some (s', _) => runFileLoop fuel tailRest (ln + 1 + consumed + 1) s'
      else
        match run fuel (.line line ln) s with
        | Option.none => Option.none
        | some (s', some e) => some (s', some e)
        | some (s', Option.none) => runFileLoop fuel rest (ln+1) s'

/-- `run_file`, driving a list of source lines from line number 1. -/
def run_file (fuel : Nat) (lns : List String) (s : State) : Option (State × Option PErr) :=
  runFileLoop fuel lns 1 s

/-- The empty starting state (empty Environment and world). -/
def initState : State :=
  { env := ⟨[], [], [], []⟩, stopProgram := false, output := [], files := [],
    stdinB := [], nowT := 0, dateS := "", dateTimeS := "", rands := [] }

/-! ## Association-list lemmas -/

theorem lookupA_insertA {α : Type} (k : String) (v : α) (l : List (String × α)) :
    lookupA k (insertA k v l) = some v := by
  induction l with
  | nil => simp [insertA, lookupA]
  | cons hd tl ih =>
    obtain ⟨k', v'⟩ := hd
    by_cases h : k' = k
    · simp [insertA, lookupA, h]
    · simp [insertA, lookupA, h, ih]

theorem insertA_insertA {α : Type} (k : String) (v w : α) (l : List (String × α)) :
    insertA k w (insertA k v l) = insertA k w l := by
  induction l with
  | nil => simp [insertA]
  | cons hd tl ih =>
    obtain ⟨k', v'⟩ := hd
    by_cases h : k' = k
    · simp [insertA, h]
    · simp [insertA, h, ih]

theorem insertA_lookup_eq {α : Type} (k : String) (v : α) (l : List (String × α))
    (h : lookupA k l = some v) : insertA k v l = l := by
  induction l with
  | nil => simp [lookupA] at h
  | cons hd tl ih =>
    obtain ⟨k', v'⟩ := hd
    by_cases hk : k' = k
    · simp [lookupA, hk] at h
      simp [insertA, hk, h]
    · simp [lookupA, hk] at h
      simp [insertA, hk, ih h]

theorem popList_append (l : List PyVal) (x : PyVal) : popList (l ++ [x]) = some (x, l) := by
  simp [popList, List.reverse_append]

/-! ## Comparison-evaluation lemmas -/

theorem cmpRat_lt (a b : Int) : (compare (a : Rat) (b : Rat) == Ordering.lt) = decide (a < b) := by
  rcases lt_trichotomy a b with h | h | h
  · rw [compare_lt_iff_lt.mpr (by exact_mod_cast h), decide_eq_true h]
    rfl
  · subst h
    rw [compare_eq_iff_eq.mpr rfl, decide_eq_false (lt_irrefl a)]
    rfl
  · rw [compare_gt_iff_gt.mpr (by exact_mod_cast h), decide_eq_false (by omega : ¬ a < b)]
    rfl

theorem cmpRat_gt (a b : Int) : (compare (a : Rat) (b : Rat) == Ordering.gt) = decide (b < a) := by
  rcases lt_trichotomy a b with h | h | h
  · rw [compare_lt_iff_lt.mpr (by exact_mod_cast h), decide_eq_false (by omega : ¬ b < a)]
    rfl
  · subst h
    rw [compare_eq_iff_eq.mpr rfl, decide_eq_false (lt_irrefl a)]
    rfl
  · rw [compare_gt_iff_gt.mpr (by exact_mod_cast h), decide_eq_true h]
    rfl

theorem charsLt_iff (cs ds : List Char) : charsLt cs ds = true ↔ cs < ds := by
  induction cs generalizing ds with
  | nil =>
    cases ds with
    | nil =>
      constructor
      · intro h
        simp [charsLt] at h
      · intro h
        cases h
    | cons b bs =>
      constructor
      · intro _
        exact List.Lex.nil
      · intro _
        rfl
  | cons a as ih =>
    cases ds with
    | nil =>
      constructor
      · intro h
        simp [charsLt] at h
      · intro h
        cases h
    | cons b bs =>
      by_cases hab : a = b
      · subst hab
        rw [show charsLt (a :: as) (a :: bs) = charsLt as bs from by simp [charsLt]]
        constructor
        · intro h
          exact List.Lex.cons ((ih bs).mp h)
        · intro h
          cases h with
          | cons h' => exact (ih bs).mpr h'
          | rel h' => exact absurd h' (lt_irrefl a)
      · rw [show charsLt (a :: as) (b :: bs) = decide (a < b) from by simp [charsLt, hab]]
        constructor
        · intro h
          exact List.Lex.rel (of_decide_eq_true h)
        · intro h
          cases h with
          | cons h' => exact absurd rfl hab
          | rel h' => exact decide_eq_true h'

theorem strOrdering_lt (s t : String) :
    ((if s == t then Ordering.eq else if charsLt s.data t.data then Ordering.lt else Ordering.gt)
      == Ordering.lt) = decide (s < t) := by
  cases hbeq : s == t with
  | true =>
    have hst : s = t := by simpa using hbeq
    rw [if_pos rfl, hst, decide_eq_false (lt_irrefl t)]
    rfl
  | false =>
    have hst : s ≠ t := by simpa using hbeq
    rw [if_neg Bool.false_ne_true]
    cases hclt : charsLt s.data t.data with
    | true =>
      have : s < t := String.lt_iff_toList_lt.mpr ((charsLt_iff _ _).mp hclt)
      rw [if_pos rfl, decide_eq_true this]
      rfl
    | false =>
      have : ¬ s < t := fun h => by
        rw [(charsLt_iff s.data t.data).mpr (String.lt_iff_toList_lt.mp h)] at hclt
        exact Bool.noConfusion hclt
      rw [if_neg Bool.false_ne_true, decide_eq_false this]
      rfl

theorem strOrdering_gt (s t : String) :
    ((if s == t then Ordering.eq else if charsLt s.data t.data then Ordering.lt else Ordering.gt)
      == Ordering.gt) = decide (t < s) := by
  cases hbeq : s == t with
  | true =>
    have hst : s = t := by simpa using hbeq
    rw [if_pos rfl, hst, decide_eq_false (lt_irrefl t)]
    rfl
  | false =>
    have hst : s ≠ t := by simpa using hbeq
    rw [if_neg Bool.false_ne_true]
    cases hclt : charsLt s.data t.data with
    | true =>
      have hslt : s < t := String.lt_iff_toList_lt.mpr ((charsLt_iff _ _).mp hclt)
      have : ¬ t < s := fun h => absurd (lt_trans hslt h) (lt_irrefl s)
      rw [if_pos rfl, decide_eq_false this]
      rfl
    | false =>
      have hnlt : ¬ s < t := fun h => by
        rw [(charsLt_iff s.data t.data).mpr (String.lt_iff_toList_lt.mp h)] at hclt
        exact Bool.noConfusion hclt
      have : t < s := by
        rcases lt_trichotomy s t with h | h | h
        · exact absurd h hnlt
        · exact absurd h hst
        · exact h
      rw [if_neg Bool.false_ne_true, decide_eq_true this]
      rfl

/-! ## Claim theorems -/

/-- C1, counterexample: the statement `1 + 2 * 3` does NOT parse as
`1 + (2 * 3)`: the parser returns the left-nested tree `(1 + 2) * 3`, and
running `show 1 + 2 * 3` prints `9`, not the `7` the claimed grouping would
give. -/
theorem c1_parse_counterexample :
    (do
      let toks ← tokenize "1 + 2 * 3"
      let (n, _) ← parse_expr 9 1 toks
      pure n : Except PErr Node) =
      .ok (.binOp (.binOp (.num (.int 1)) "+" (.num (.int 2))) "*" (.num (.int 3)))
    ∧ run_line 20 "show 1 + 2 * 3" 1 initState = some (pushOut initState "9", Option.none)
    ∧ "9" ≠ "7" :=
  ⟨rfl, rfl, by decide⟩

/-- C1, amended: `parse_expr` parses all four binary operators `+ - * /` at a
single precedence level, strictly left-associatively (`parse_term` only
parses one factor), so `a OP1 b OP2 c` always groups as `(a OP1 b) OP2 c` —
in particular `a + b * c` parses and evaluates as `(a + b) * c`. -/
theorem c1_flat_left_assoc (fuel ln : Nat) (sa sb sc o1 o2 : String)
    (h1 : o1 = "+" ∨ o1 = "-" ∨ o1 = "*" ∨ o1 = "/")
    (h2 : o2 = "+" ∨ o2 = "-" ∨ o2 = "*" ∨ o2 = "/") :
    parse_expr (fuel + 3) ln
      [⟨.NUMBER, sa⟩, ⟨.OP, o1⟩, ⟨.NUMBER, sb⟩, ⟨.OP, o2⟩, ⟨.NUMBER, sc⟩] =
      .ok (.binOp (.binOp (.num (numOfString sa)) o1 (.num (numOfString sb))) o2
        (.num (numOfString sc)), []) := by
  rcases h1 with rfl | rfl | rfl | rfl <;> rcases h2 with rfl | rfl | rfl | rfl <;> rfl

/-- C1 witness: the amended theorem at `1 + 2 * 3`. -/
theorem c1_flat_left_assoc_witness :
    ("+" = "+" ∨ "+" = "-" ∨ "+" = "*" ∨ "+" = "/")
    ∧ parse_expr 3 1 [⟨.NUMBER, "1"⟩, ⟨.OP, "+"⟩, ⟨.NUMBER, "2"⟩, ⟨.OP, "*"⟩, ⟨.NUMBER, "3"⟩] =
      .ok (.binOp (.binOp (.num (numOfString "1")) "+" (.num (numOfString "2"))) "*"
        (.num (numOfString "3")), []) :=
  ⟨Or.inl rfl,
   c1_flat_left_assoc 0 1 "1" "2" "3" "+" "*" (Or.inl rfl) (Or.inr (Or.inr (Or.inl rfl)))⟩

/-- C3, counterexample: `1 and 2` evaluates to True (both operands coerced by
truthiness) instead of failing with a type error, and `not 5` in condition
position evaluates to False by truthiness as well. -/
theorem c3_truthiness_counterexample :
    eval_cond initState.env (.cond (.num (.int 1)) "and" (.num (.int 2))) = .ok true
    ∧ eval_cond initState.env (.cond (.num (.int 0)) "or" (.num (.int 2))) = .ok true
    ∧ eval_cond initState.env (.notOp (.num (.int 5))) = .ok false :=
  ⟨rfl, rfl, rfl⟩

/-- C3, amended: `and`/`or` accept arbitrary operands and combine their
truthiness (`bool(left) and/or bool(right)`); no type error is raised.  Only
`not` evaluated as an expression (`eval_expr`) demands a boolean operand and
fails otherwise; `not` in condition position (`eval_cond`) also coerces by
truthiness. -/
theorem c3_logical_truthiness (env : EnvT) (a b : Int) :
    eval_cond env (.cond (.num (.int a)) "and" (.num (.int b))) = .ok ((a != 0) && (b != 0))
    ∧ eval_cond env (.cond (.num (.int a)) "or" (.num (.int b))) = .ok ((a != 0) || (b != 0))
    ∧ eval_cond env (.notOp (.num (.int a))) = .ok (a == 0)
    ∧ eval_expr env (.notOp (.num (.int a))) =
        .error ⟨.valueErr, "Operator 'not' requires a boolean value"⟩ := by
  refine ⟨rfl, rfl, ?_, rfl⟩
  show Except.ok (!(a != 0)) = Except.ok (a == 0)
  simp [bne]

/-- C4, counterexample: a condition spelled with `==` does not evaluate at
all — `5 == 5` raises a TypeError (the operator list of `eval_cond` has `=`
but not `==`, so the node falls through to `eval_expr`, which rejects `Cond`
nodes) instead of evaluating to true. -/
theorem c4_eqeq_counterexample :
    eval_cond initState.env (.cond (.num (.int 5)) "==" (.num (.int 5))) =
      .error ⟨.typeErr, "Unknown expression node type: <class '__main__.Cond'>"⟩ := rfl

/-- C4, amended: the comparison operators accepted by the condition
evaluator are `< > = != >= <=`; `<`, `>` and `=` return the natural
ordering/equality on two ints or two strings, but equality is spelled `=` —
a condition using `==` raises a TypeError instead of evaluating. -/
theorem c4_comparisons (env : EnvT) (a b : Int) (s t : String) :
    eval_cond env (.cond (.num (.int a)) "<" (.num (.int b))) = .ok (decide (a < b))
    ∧ eval_cond env (.cond (.num (.int a)) ">" (.num (.int b))) = .ok (decide (b < a))
    ∧ eval_cond env (.cond (.num (.int a)) "=" (.num (.int b))) = .ok (a == b)
    ∧ eval_cond env (.cond (.strN s) "<" (.strN t)) = .ok (decide (s < t))
    ∧ eval_cond env (.cond (.strN s) ">" (.strN t)) = .ok (decide (t < s))
    ∧ eval_cond env (.cond (.strN s) "=" (.strN t)) = .ok (s == t)
    ∧ eval_cond env (.cond (.num (.int a)) "==" (.num (.int b))) =
        .error ⟨.typeErr, "Unknown expression node type: <class '__main__.Cond'>"⟩ := by
  refine ⟨?_, ?_, ?_, ?_, ?_, ?_, rfl⟩
  · show Except.ok (compare (a : Rat) (b : Rat) == Ordering.lt) = _
    rw [cmpRat_lt]
  · show Except.ok (compare (a : Rat) (b : Rat) == Ordering.gt) = _
    rw [cmpRat_gt]
  · show Except.ok ((a : Rat) == (b : Rat)) = _
    have : ((a : Rat) == (b : Rat)) = (a == b) := by simp [beq_iff_eq]
    rw [this]
  · show Except.ok ((if s == t then Ordering.eq
        else if charsLt s.data t.data then Ordering.lt else Ordering.gt) == Ordering.lt) = _
    rw [strOrdering_lt]
  · show Except.ok ((if s == t then Ordering.eq
        else if charsLt s.data t.data then Ordering.lt else Ordering.gt) == Ordering.gt) = _
    rw [strOrdering_gt]
  · rfl

/-- C5: the `write`/`read` path is `os.path.join(TMP_DIR, filename)`, which
does NOT strip path components: an absolute filename discards `TMP_DIR`
entirely, so `write "data" "/etc/passwd"` creates `/etc/passwd`, outside the
scratch directory — the code never strips path components as the claim
requires. -/
theorem c5_write_escapes_tmpdir :
    run 20 (.node (some (.write (.strN "data") (.strN "/etc/passwd"))) 1) initState =
      some ({initState with files := [("/etc/passwd", "data")]}, Option.none)
    ∧ os_path_join TMP_DIR "/etc/passwd" = "/etc/passwd"
    ∧ strStartsWith "/etc/passwd" (TMP_DIR ++ "/") = false :=
  ⟨rfl, rfl, rfl⟩

/-- `run_node` catches every exception its body raises (the try/except in the
source), so a `Job.node` result never carries a propagating error. -/
theorem run_node_no_propagate (fuel : Nat) (n : Option Node) (ln : Nat) (s : State)
    (r : State × Option PErr) (h : run fuel (.node n ln) s = some r) : r.2 = Option.none := by
  match fuel with
  | 0 => exact absurd h (by simp [run])
  | f+1 =>
    simp only [run] at h
    by_cases hs : s.stopProgram = true
    · rw [if_pos hs] at h
      cases h
      rfl
    · rw [if_neg hs] at h
      rcases hr : run f (.nodeCore n ln) s with _ | ⟨s', e⟩
      · rw [hr] at h
        cases h
      · rw [hr] at h
        cases e with
        | none =>
          cases h
          rfl
        | some e' =>
          cases h
          rfl

/-- C2, counterexample: in the three-line file `show 1 / @ / show 2` the
lexically invalid middle line is NOT caught at its line boundary: the lex
error propagates out of `run_file` (no try/except around the plain-line
`run_line` call), so only `1` is ever printed — the valid third line never
executes and the error is never reported as an `[ERROR]` line. -/
theorem c2_abort_counterexample :
    run_file 30 ["show 1", "@", "show 2"] initState =
      some (pushOut initState "1", some ⟨.synErr, "Unknown token at position 0: '@'"⟩) := rfl

/-- C2, amended: errors raised while EVALUATING a statement are caught at the
statement boundary (`run_node` never lets an exception propagate; a file
whose middle line fails at evaluation still runs the surrounding lines and
reports one `[ERROR]` line), but errors raised while lexing or parsing a
plain top-level line propagate out of `run_file` uncaught and abort the rest
of the file. -/
theorem c2_statement_error_recovery :
    (∀ (fuel : Nat) (n : Option Node) (ln : Nat) (s : State) (r : State × Option PErr),
      run fuel (.node n ln) s = some r → r.2 = Option.none)
    ∧ run_file 30 ["show 1", "show nope", "show 2"] initState =
        some (pushOut (pushOut (pushOut initState "1")
          "[ERROR] Line 2: No variable/array named: nope") "2", Option.none)
    ∧ run_file 30 ["show 1", "@", "show 2"] initState =
        some (pushOut initState "1", some ⟨.synErr, "Unknown token at position 0: '@'"⟩) :=
  ⟨run_node_no_propagate, rfl, rfl⟩

/-- C2 witness: the no-propagation statement applied to a concrete
`show`-style node run. -/
theorem c2_statement_error_recovery_witness :
    ∃ r : State × Option PErr,
      run 5 (.node (some (.num (.int 1))) 1) initState = some r ∧ r.2 = Option.none :=
  ⟨(pushOut initState "1", Option.none), rfl,
   c2_statement_error_recovery.1 5 (some (.num (.int 1))) 1 initState
     (pushOut initState "1", Option.none) rfl⟩

/-- C9: a `NameRef` (`Var`) resolves against scalar variables first, then
numeric arrays, then string arrays, in that fixed order — a name bound in
several tables yields the scalar binding — and evaluates to a `NameError`
(`UndefinedName`) when absent from all three. -/
theorem c9_nameref_resolution_order (env : EnvT) (name : String) :
    (∀ v, lookupA name env.vars = some v → eval_expr env (.var name) = .ok v)
    ∧ (∀ arr, lookupA name env.vars = Option.none → lookupA name env.arrays = some arr →
        eval_expr env (.var name) = .ok (.list arr))
    ∧ (∀ arr, lookupA name env.vars = Option.none → lookupA name env.arrays = Option.none →
        lookupA name env.arrays_str = some arr → eval_expr env (.var name) = .ok (.list arr))
    ∧ (lookupA name env.vars = Option.none → lookupA name env.arrays = Option.none →
        lookupA name env.arrays_str = Option.none →
        eval_expr env (.var name) = .error ⟨.nameErr, "No variable/array named: " ++ name⟩) := by
  refine ⟨?_, ?_, ?_, ?_⟩
  · intro v h
    simp only [eval_expr, h]
  · intro arr h1 h2
    simp only [eval_expr, h1, h2]
  · intro arr h1 h2 h3
    simp only [eval_expr, h1, h2, h3]
  · intro h1 h2 h3
    simp only [eval_expr, h1, h2, h3]

/-- C9 witness: with `x` bound both as a scalar (7) and as a numeric array,
the scalar binding wins; an unbound name gives the NameError. -/
theorem c9_nameref_resolution_order_witness :
    eval_expr ⟨[("x", .int 7)], [("x", [.int 1])], [], []⟩ (.var "x") = .ok (.int 7)
    ∧ eval_expr ⟨[], [], [], []⟩ (.var "nope") =
        .error ⟨.nameErr, "No variable/array named: " ++ "nope"⟩ :=
  ⟨(c9_nameref_resolution_order ⟨[("x", .int 7)], [("x", [.int 1])], [], []⟩ "x").1 (.int 7) rfl,
   (c9_nameref_resolution_order ⟨[], [], [], []⟩ "nope").2.2.2 rfl rfl rfl⟩

/-- C10: the statement `bool NAME` with no trailing `true`/`false` literal
parses successfully to `BoolAssign(NAME, False)` (the declaration defaults
to False) and executing it binds NAME to False in the scalar-variable
table. -/
theorem c10_bool_defaults_false (pfuel fuel ln : Nat) (s : State) (n : String)
    (hn : varNameOf n = n) (hs : s.stopProgram = false) :
    parse_stmt (pfuel + 1) ln [⟨.ID, "bool"⟩, ⟨.ID, n⟩] = .ok (some (.boolAssign n false), [])
    ∧ run (fuel + 2) (.node (some (.boolAssign n false)) ln) s =
        some (setVar s n (.bool false), Option.none) := by
  constructor
  · simp only [parse_stmt, parse_bool_assign, parse_var]
    simp only [hn]
    rfl
  · simp only [run]
    rw [if_neg (by simp [hs])]

/-- C10 witness: `bool x` from tokens through execution on the empty state. -/
theorem c10_bool_defaults_false_witness :
    varNameOf "x" = "x"
    ∧ parse_stmt 1 1 [⟨.ID, "bool"⟩, ⟨.ID, "x"⟩] = .ok (some (.boolAssign "x" false), [])
    ∧ run 2 (.node (some (.boolAssign "x" false)) 1) initState =
        some (setVar initState "x" (.bool false), Option.none) :=
  ⟨rfl, (c10_bool_defaults_false 0 0 1 initState "x" rfl rfl).1,
   (c10_bool_defaults_false 0 0 1 initState "x" rfl rfl).2⟩

/-- One-step unfolding of `run_node` into its stop-check and exception
handler around the dispatch body. -/
theorem run_node_unfold (fuel : Nat) (n : Option Node) (ln : Nat) (s : State) :
    run (fuel + 1) (.node n ln) s =
      if s.stopProgram then some (s, Option.none)
      else match run fuel (.nodeCore n ln) s with
        | Option.none => Option.none
        | some (s', some e) => some (pushOut s' (errLine ln e), Option.none)
        | some (s', Option.none) => some (s', Option.none) := rfl

/-- C7: on an existing array (numeric or string), `get` with an index outside
`[0, length)` and `pop` on an empty array fail with a bounds error
(IndexError), and in every such failure the whole Environment — the array
included — is left unchanged: the final state is the input state plus only
the printed `[ERROR]` report. -/
theorem c7_bounds_failures_preserve_state :
    (∀ (fuel ln : Nat) (s : State) (name : String) (arr : List PyVal) (idx : Int)
        (rv : Option String),
      s.stopProgram = false → lookupA name s.env.arrays = some arr →
      idx < 0 ∨ (arr.length : Int) ≤ idx →
      run (fuel + 2) (.node (some (.get name (.num (.int idx)) rv)) ln) s =
        some (pushOut s (errLine ln ⟨.indexErr, "Invalid index: " ++ toString idx⟩), Option.none))
    ∧ (∀ (fuel ln : Nat) (s : State) (name : String) (arr : List PyVal) (idx : Int)
        (rv : Option String),
      s.stopProgram = false → lookupA name s.env.arrays = Option.none →
      lookupA name s.env.arrays_str = some arr →
      idx < 0 ∨ (arr.length : Int) ≤ idx →
      run (fuel + 2) (.node (some (.get name (.num (.int idx)) rv)) ln) s =
        some (pushOut s (errLine ln ⟨.indexErr, "Invalid index: " ++ toString idx⟩), Option.none))
    ∧ (∀ (fuel ln : Nat) (s : State) (name : String),
      s.stopProgram = false → lookupA name s.env.arrays = some [] →
      run (fuel + 2) (.node (some (.pop name)) ln) s =
        some (pushOut s (errLine ln ⟨.indexErr, "Empty array"⟩), Option.none))
    ∧ (∀ (fuel ln : Nat) (s : State) (name : String),
      s.stopProgram = false → lookupA name s.env.arrays = Option.none →
      lookupA name s.env.arrays_str = some [] →
      run (fuel + 2) (.node (some (.pop name)) ln) s =
        some (pushOut s (errLine ln ⟨.indexErr, "Empty array"⟩), Option.none)) := by
  refine ⟨?_, ?_, ?_, ?_⟩
  · intro fuel ln s name arr idx rv hs hl hb
    have hcond : (decide (idx < 0) || decide ((arr.length : Int) ≤ idx)) = true := by
      rcases hb with h | h <;> simp [h]
    have hcore : run (fuel + 1) (.nodeCore (some (.get name (.num (.int idx)) rv)) ln) s =
        some (s, some ⟨.indexErr, "Invalid index: " ++ toString idx⟩) := by
      simp only [run, hl, eval_expr, pyToInt, Except.bind, bind]
      rw [hcond]
      rfl
    rw [run_node_unfold, if_neg (by simp [hs]), hcore]
  · intro fuel ln s name arr idx rv hs hl1 hl2 hb
    have hcond : (decide (idx < 0) || decide ((arr.length : Int) ≤ idx)) = true := by
      rcases hb with h | h <;> simp [h]
    have hcore : run (fuel + 1) (.nodeCore (some (.get name (.num (.int idx)) rv)) ln) s =
        some (s, some ⟨.indexErr, "Invalid index: " ++ toString idx⟩) := by
      simp only [run, hl1, hl2, eval_expr, pyToInt, Except.bind, bind]
      rw [hcond]
      rfl
    rw [run_node_unfold, if_neg (by simp [hs]), hcore]
  · intro fuel ln s name hs hl
    have hcore : run (fuel + 1) (.nodeCore (some (.pop name)) ln) s =
        some (s, some ⟨.indexErr, "Empty array"⟩) := by
      simp only [run, hl]
      rfl
    rw [run_node_unfold, if_neg (by simp [hs]), hcore]
  · intro fuel ln s name hs hl1 hl2
    have hcore : run (fuel + 1) (.nodeCore (some (.pop name)) ln) s =
        some (s, some ⟨.indexErr, "Empty array"⟩) := by
      simp only [run, hl1, hl2]
      rfl
    rw [run_node_unfold, if_neg (by simp [hs]), hcore]

/-- C7 witness: `get 'a' 5` on `a = [7, 8, 9]` and `pop` on an empty array,
both erroring and leaving the state otherwise unchanged. -/
theorem c7_bounds_failures_witness :
    run 2 (.node (some (.get "a" (.num (.int 5)) Option.none)) 2)
        {initState with env := ⟨[], [("a", [.int 7, .int 8, .int 9])], [], []⟩} =
      some (pushOut {initState with env := ⟨[], [("a", [.int 7, .int 8, .int 9])], [], []⟩}
        (errLine 2 ⟨.indexErr, "Invalid index: " ++ toString (5 : Int)⟩), Option.none)
    ∧ run 2 (.node (some (.pop "z")) 3)
        {initState with env := ⟨[], [("z", [])], [], []⟩} =
      some (pushOut {initState with env := ⟨[], [("z", [])], [], []⟩}
        (errLine 3 ⟨.indexErr, "Empty array"⟩), Option.none) :=
  ⟨c7_bounds_failures_preserve_state.1 0 2 _ "a" [.int 7, .int 8, .int 9] 5 Option.none rfl rfl
     (Or.inr (by decide)),
   c7_bounds_failures_preserve_state.2.2.1 0 3 _ "z" rfl rfl⟩

/-- C8: on a bound numeric array, `push a v` with a numeric literal appends
`v`, and the following `pop a` prints `v` and restores the array binding —
and with it the whole state — to exactly what it was before the push (plus
the printed line). -/
theorem c8_push_pop_roundtrip (fuel1 fuel2 ln1 ln2 : Nat) (s : State) (name : String)
    (arr : List PyVal) (v : Int)
    (hs : s.stopProgram = false) (hl : lookupA name s.env.arrays = some arr) :
    run (fuel1 + 2) (.node (some (.push name (.num (.int v)))) ln1) s =
      some ({s with env := {s.env with arrays := insertA name (arr ++ [.int v]) s.env.arrays}},
        Option.none)
    ∧ run (fuel2 + 2) (.node (some (.pop name)) ln2)
        {s with env := {s.env with arrays := insertA name (arr ++ [.int v]) s.env.arrays}} =
      some (pushOut s (pyStr (.int v)), Option.none) := by
  constructor
  · have hcore : run (fuel1 + 1) (.nodeCore (some (.push name (.num (.int v)))) ln1) s =
        some ({s with env := {s.env with arrays := insertA name (arr ++ [.int v]) s.env.arrays}},
          Option.none) := by
      simp only [run, hl, eval_expr, pushCoerce, Except.bind, bind]
      rfl
    rw [run_node_unfold, if_neg (by simp [hs]), hcore]
  · have harr : insertA name arr (insertA name (arr ++ [.int v]) s.env.arrays) = s.env.arrays := by
      rw [insertA_insertA, insertA_lookup_eq name arr s.env.arrays hl]
    have hcore : run (fuel2 + 1) (.nodeCore (some (.pop name)) ln2)
        {s with env := {s.env with arrays := insertA name (arr ++ [.int v]) s.env.arrays}} =
        some (pushOut s (pyStr (.int v)), Option.none) := by
      simp only [run, lookupA_insertA, popList_append, setArrays]
      rw [harr]
    rw [run_node_unfold, if_neg (by simp [hs]), hcore]

/-- C8 witness: `push 'a' 4` then `pop 'a'` on `a = [1, 2, 3]` prints `4`
and leaves the array `[1, 2, 3]`. -/
theorem c8_push_pop_roundtrip_witness :
    run 2 (.node (some (.push "a" (.num (.int 4)))) 1)
        {initState with env := ⟨[], [("a", [.int 1, .int 2, .int 3])], [], []⟩} =
      some ({initState with env := ⟨[], insertA "a" ([.int 1, .int 2, .int 3] ++ [.int 4]) [("a", [.int 1, .int 2, .int 3])], [], []⟩}, Option.none)
    ∧ run 2 (.node (some (.pop "a")) 2)
        {initState with env := ⟨[], insertA "a" ([.int 1, .int 2, .int 3] ++ [.int 4]) [("a", [.int 1, .int 2, .int 3])], [], []⟩} =
      some (pushOut {initState with env := ⟨[], [("a", [.int 1, .int 2, .int 3])], [], []⟩} (pyStr (.int 4)), Option.none) :=
  ⟨(c8_push_pop_roundtrip 0 0 1 2 {initState with env := ⟨[], [("a", [.int 1, .int 2, .int 3])], [], []⟩} "a" [.int 1, .int 2, .int 3] 4 rfl rfl).1,
   (c8_push_pop_roundtrip 0 0 1 2 {initState with env := ⟨[], [("a", [.int 1, .int 2, .int 3])], [], []⟩} "a" [.int 1, .int 2, .int 3] 4 rfl rfl).2⟩

/-- The while loop with an always-true condition and a clean body transform
`g` (using at most `B` fuel per pass) runs the body exactly
`MAX_ITERATIONS - count` more times and then raises the iteration-limit
RuntimeError. -/
theorem whileCap_aux (c : Node) (body : List String) (ln : Nat) (g : State → State) (B : Nat)
    (H1 : ∀ e : EnvT, eval_cond e c = .ok true)
    (H2 : ∀ (f : Nat) (s : State), B ≤ f → run f (.lines body (ln+1)) s = some (g s, Option.none)) :
    ∀ (k count fuel : Nat) (s : State), count + k = MAX_ITERATIONS → B + k + 1 ≤ fuel →
      run fuel (.whileLoop c (some body) ln count) s =
        some (g^[k] s, some ⟨.runtimeErr,
          "Line " ++ toString ln ++ ": exceeded iteration limit (" ++ toString MAX_ITERATIONS ++
            ") in while loop"⟩) := by
  intro k
  induction k with
  | zero =>
    intro count fuel s hcnt hfuel
    match fuel, hfuel with
    | f+1, _ =>
      simp only [run, H1 s.env]
      rw [if_pos (by omega : MAX_ITERATIONS ≤ count)]
      simp
  | succ k ih =>
    intro count fuel s hcnt hfuel
    match fuel, hfuel with
    | f+1, hf =>
      simp only [run, H1 s.env]
      rw [if_neg (by omega : ¬ MAX_ITERATIONS ≤ count)]
      rw [H2 f s (by omega)]
      show run f (.whileLoop c (some body) ln (count + 1)) (g s) = _
      rw [ih (count+1) f (g s) (by omega) (by omega)]
      rw [Function.iterate_succ_apply]

/-- C6: `MAX_ITERATIONS` defaults to 1000 (within 10^3..10^5); a while loop
whose condition always evaluates to true does not hang: after exactly
`MAX_ITERATIONS` body executions the loop raises the iteration-limit
RuntimeError, which `run_node`'s handler catches and reports — a recoverable
error, not a hang.  A loop whose condition becomes false within the cap
(`while i < 3` with a body incrementing `i` from 0) executes its body
exactly 3 times and terminates normally. -/
theorem c6_while_iteration_cap :
    (1000 ≤ MAX_ITERATIONS ∧ MAX_ITERATIONS ≤ 100000)
    ∧ (∀ (c : Node) (body : List String) (ln : Nat) (g : State → State) (B fuel : Nat) (s : State),
        (∀ e : EnvT, eval_cond e c = .ok true) →
        (∀ (f : Nat) (s' : State), B ≤ f → run f (.lines body (ln+1)) s' = some (g s', Option.none)) →
        B + MAX_ITERATIONS + 1 ≤ fuel → s.stopProgram = false →
        run (fuel + 2) (.node (some (.whileN c (some body))) ln) s =
          some (pushOut (g^[MAX_ITERATIONS] s) (errLine ln ⟨.runtimeErr,
            "Line " ++ toString ln ++ ": exceeded iteration limit (" ++ toString MAX_ITERATIONS ++
              ") in while loop"⟩),
            Option.none))
    ∧ run 60 (.node (some (.whileN (.cond (.var "i") "<" (.num (.int 3))) (some ["i + 1 = i"]))) 5)
          {initState with env := ⟨[("i", .int 0)], [], [], []⟩} =
        some ({initState with env := ⟨[("i", .int 3)], [], [], []⟩}, Option.none) := by
  refine ⟨⟨by norm_num [MAX_ITERATIONS], by norm_num [MAX_ITERATIONS]⟩, ?_, ?_⟩
  · intro c body ln g B fuel s H1 H2 hfuel hs
    have hw := whileCap_aux c body ln g B H1 H2 MAX_ITERATIONS 0 fuel s (by omega) (by omega)
    have hcore : run (fuel + 1) (.nodeCore (some (.whileN c (some body))) ln) s =
        some (g^[MAX_ITERATIONS] s, some ⟨.runtimeErr,
          "Line " ++ toString ln ++ ": exceeded iteration limit (" ++ toString MAX_ITERATIONS ++
            ") in while loop"⟩) := by
      show run fuel (.whileLoop c (some body) ln 0) s = _
      exact hw
    rw [run_node_unfold, if_neg (by simp [hs]), hcore]
  · rfl

/-- C6 witness: `while true` with an empty body (which never advances the
condition) trips the cap: the loop aborts with the reported iteration-limit
error and execution continues (no propagating exception). -/
theorem c6_while_iteration_cap_witness :
    run 1103 (.node (some (.whileN (.boolN true) (some []))) 1) initState =
      some (pushOut initState (errLine 1 ⟨.runtimeErr,
        "Line " ++ toString 1 ++ ": exceeded iteration limit (" ++ toString MAX_ITERATIONS ++
          ") in while loop"⟩), Option.none) := by
  have h := c6_while_iteration_cap.2.1 (.boolN true) [] 1 id 1 1101 initState
    (fun _ => rfl)
    (fun f s' hf => by
      match f, hf with
      | f+1, _ => rfl)
    (by norm_num [MAX_ITERATIONS]) rfl
  simpa [Function.iterate_id] using h

end W

